import Mathlib

/-!
# Verification of the kg-explorer natural-language query engine

A shallow embedding of `src/query-engine.js` (the `QueryEngine` class of the
Singapore Urban Knowledge Graph Explorer) together with proofs about the
claims of the specification.

Modelling conventions, stated once here and referenced throughout:

* JS numbers are modelled as exact rationals (`ℚ`).  A numeric node field that
  may be `null`/`undefined`/`NaN` is modelled as `Option ℚ` with `none`
  covering all three absent/invalid states: every operation the engine
  performs on such a field (`x || 0`, the `!= null && !isNaN` filter of the
  ranking handler, and `> 0` comparisons) treats `null`, `undefined` and
  `NaN` identically, so the collapse is faithful.
* `Math.sqrt` (used only by `stddev`) is modelled with `Real.sqrt`.
* Strings are handled as `List Char`; JS regular-expression tests of the
  engine are unfolded into explicit substring / word-boundary scans, one
  definition per regex, each documented with the regex it implements.
  The engine only ever receives single-line queries, so the fact that the
  JS `.` metacharacter does not match line terminators is not modelled.
* `Array.prototype.sort` with a numeric comparator is (per ES2019) a stable
  sort consistent with the comparator; any stable sort consistent with a
  total preorder produces the same list, so it is modelled by
  `List.insertionSort` (stable) on the comparator's preorder.
* Number rendering (`_fmt`, `toFixed`, `toLocaleString`) is float- and
  locale-dependent in the browser; it is modelled by exact decimal rendering
  of rationals (`ratToFixed`, `fmtNum`) without locale group separators.
  No claim depends on the rendered digits of a number.
* Large blocks of static presentation markup (metric tables, facility tag
  lists, chart styling options) are view formatting with no data content
  beyond what the modelled fields already carry; where a handler's `html`
  consists of such markup after its data-bearing insight header, only the
  header is reproduced and a comment in the definition records the elision.
  The `html` of error results and of the count-style statistic results is
  reproduced in full, because claims refer to it.
-/

namespace KG

/-! ## Characters and strings -/

/-- JS word character (`\w` = `[A-Za-z0-9_]`). -/
def isWordChar (c : Char) : Bool := c.isAlphanum || c == '_'

/-- JS whitespace class `\s` (also used by `String.prototype.trim`),
modelled by Unicode whitespace. -/
def isSpaceChar (c : Char) : Bool := c.isWhitespace

/-- `String.prototype.trim`: strip leading and trailing whitespace. -/
def jsTrim (s : List Char) : List Char :=
  ((s.dropWhile isSpaceChar).reverse.dropWhile isSpaceChar).reverse

/-- `String.prototype.toLowerCase` (ASCII suffices for the engine's input). -/
def lowerStr (s : List Char) : List Char := s.map Char.toLower

/-- `hay.includes(needle)` — substring test. -/
def hasSubstr (hay : List Char) (needle : List Char) : Bool :=
  match hay with
  | [] => needle.isEmpty
  | _ :: t => needle.isPrefixOf hay || hasSubstr t needle

/-- Any of the given literals occurs as a substring. -/
def anySubstr (t : List Char) (pats : List String) : Bool :=
  pats.any (fun p => hasSubstr t p.toList)

/-- The suffix of `hay` just after the first occurrence of `pat`
(`none` when `pat` does not occur). -/
def afterSubstr (hay : List Char) (pat : List Char) : Option (List Char) :=
  match hay with
  | [] => if pat.isEmpty then some [] else none
  | _ :: t =>
    if pat.isPrefixOf hay then some (hay.drop pat.length)
    else afterSubstr t pat

/-- Regex `s1.*s2`: an occurrence of `s1` with `s2` somewhere after it. -/
def seqSubstr (t : List Char) (s1 s2 : String) : Bool :=
  match afterSubstr t s1.toList with
  | some rest => hasSubstr rest s2.toList
  | none => false

/-- The char after the match must not be a word char (regex `\b` at the end
of a word-character literal). -/
def boundaryAfter (rest : List Char) : Bool :=
  match rest with
  | [] => true
  | c :: _ => !isWordChar c

/-- Scanner for `hasWordPre`/`hasWord`: `prevW` is whether the previous char
was a word char.  `close` demands a boundary after the literal as well. -/
def hasWordAux (w : List Char) (close : Bool) : List Char → Bool → Bool
  | [], _ => false
  | c :: rest, prevW =>
    (!prevW && w.isPrefixOf (c :: rest)
      && (!close || boundaryAfter ((c :: rest).drop w.length)))
    || hasWordAux w close rest (isWordChar c)

/-- Regex `\bw\b` for a literal `w` beginning and ending with word chars
(this covers every keyword the engine tests; a space inside `w` is fine,
the boundaries are only demanded at the two ends). -/
def hasWord (t : List Char) (w : String) : Bool := hasWordAux w.toList true t false

/-- Regex `\bw` — boundary before only (used for stem patterns such as
`\bdiversit` and `\bbuilding`). -/
def hasWordPre (t : List Char) (w : String) : Bool := hasWordAux w.toList false t false

/-- Scanner for `hasWordSuf`. -/
def hasWordSufAux (w : List Char) : List Char → Bool
  | [] => false
  | c :: rest =>
    (w.isPrefixOf (c :: rest) && boundaryAfter ((c :: rest).drop w.length))
    || hasWordSufAux w rest

/-- Regex `w\b` — boundary after only (used for `floors?\b`). -/
def hasWordSuf (t : List Char) (w : String) : Bool := hasWordSufAux w.toList t

/-- Scanner for `seqSpaced`: try every start position. -/
def seqSpacedAux (s1 s2 : List Char) : List Char → Bool
  | [] => false
  | c :: rest =>
    (s1.isPrefixOf (c :: rest)
      && s2.isPrefixOf (((c :: rest).drop s1.length).dropWhile isSpaceChar))
    || seqSpacedAux s1 s2 rest

/-- Regex `s1\s*s2`: an occurrence of `s1` immediately followed by optional
whitespace and `s2`.  `s2` starts with a non-space char in both uses
(`child\s*care`, `social\s*service`), so greedily skipping the whole
whitespace run is equivalent to the regex's backtracking. -/
def seqSpaced (t : List Char) (s1 s2 : String) : Bool :=
  seqSpacedAux s1.toList s2.toList t

/-! ## Scanners for `/kml_\d+/i` and `/\b(\d+)\b/` -/

/-- Match of `/kml_\d+/i` anchored at the head of `s`: the four chars
`kml_` case-insensitively, then a maximal nonempty digit run.  Returns the
matched text with its original casing, as `String.prototype.match` does. -/
def kmlAt (s : List Char) : Option (List Char) :=
  match s with
  | c1 :: c2 :: c3 :: c4 :: rest =>
    if c1.toLower == 'k' && c2.toLower == 'm' && c3.toLower == 'l' && c4 == '_' then
      let ds := rest.takeWhile Char.isDigit
      if ds.isEmpty then none else some (c1 :: c2 :: c3 :: c4 :: ds)
    else none
  | _ => none

/-- First match of `/kml_\d+/i` in `s` (`q.match(/kml_\d+/i)`), scanning
left to right. -/
def findKml (s : List Char) : Option (List Char) :=
  match s with
  | [] => none
  | c :: rest =>
    match kmlAt (c :: rest) with
    | some m => some m
    | none => findKml rest

/-- Numeric value of a digit run (`parseInt(run, 10)`, exact — the engine
never handles runs long enough for float trouble in any claim). -/
def digitsVal (ds : List Char) : ℕ :=
  ds.foldl (fun a c => a * 10 + (c.toNat - 48)) 0

/-- Scanner for `firstStandaloneInt`: `prevW` records whether the previous
char was a word char.  A candidate digit run starting at a word boundary
matches only when the char after the run is not a word char; when that
fails, no start inside the run can match either (each is preceded by a
digit), so the scan simply continues one char further. -/
def scanIntAux : List Char → Bool → Option ℕ
  | [], _ => none
  | c :: rest, prevW =>
    if c.isDigit && !prevW then
      let run := (c :: rest).takeWhile Char.isDigit
      if boundaryAfter ((c :: rest).drop run.length) then some (digitsVal run)
      else scanIntAux rest true
    else scanIntAux rest (isWordChar c)

/-- First match of `/\b(\d+)\b/` — the first standalone integer of the
text — as a natural number. -/
def firstStandaloneInt (t : List Char) : Option ℕ := scanIntAux t false

/-! ## Data model

A `Node` is one parcel object of the pre-loaded data array; see the file
header for the `Option ℚ` convention on numeric fields. -/

structure Node where
  id : String
  category : String
  lat : ℚ := 0
  lng : ℚ := 0
  /-- gross floor area (`gfa`) -/
  gfa : Option ℚ := none
  /-- annual energy (`e`) -/
  e : Option ℚ := none
  /-- building count (`b`) -/
  b : Option ℚ := none
  /-- estimated residential units (`u`) -/
  u : Option ℚ := none
  /-- average building levels (`lvl`) -/
  lvl : Option ℚ := none
  /-- transit index (`ti`) -/
  ti : Option ℚ := none
  /-- diversity index (`div`) -/
  div : Option ℚ := none
  /-- bus distance (`bd`) -/
  bd : Option ℚ := none
  /-- MRT distance (`md`) -/
  md : Option ℚ := none
  /-- nearest bus stop name (`nb`) -/
  nb : Option String := none
  /-- nearest MRT name (`nm`) -/
  nm : Option String := none
  /-- comma-joined facility tokens (`ft`) -/
  ft : Option String := none
deriving DecidableEq

/-- JS `x || 0` on a numeric field. -/
def orZero (v : Option ℚ) : ℚ := v.getD 0

/-- JS `x > 0` on a numeric field (`null`/`undefined`/`NaN` compare false). -/
def gtZero (v : Option ℚ) : Bool :=
  match v with
  | some q => decide (0 < q)
  | none => false

/-- The constructor arguments of `QueryEngine`: node list, edge triples
`[srcIdx, tgtIdx, type]`, adjacency index and id→node map. -/
structure Engine where
  nodes : List Node
  edges : List (ℕ × ℕ × String)
  adj : ℕ → List (ℕ × String)
  nodeMap : String → Option Node

/-- A chart specification (`chartConfig`).  The engine's chart objects also
carry colors, fonts and axis options; those are pure styling with no data
beyond the modelled labels/series and are not modelled. -/
structure ChartConfig where
  ctype : String
  labels : List String
  datasets : List (List ℚ)
deriving DecidableEq

/-- The result object every handler returns.  `chartConfig` and
`mapHighlights` are the two optional fields. -/
structure QueryResult where
  title : String
  type : String
  html : String
  chartConfig : Option ChartConfig := none
  mapHighlights : Option (List String) := none
deriving DecidableEq

/-! ## Constants (`CAT_LABELS`, `CAT_COLORS`, `CATEGORY_RULES`, `METRICS`) -/

/-- `Object.keys(CAT_LABELS)` in insertion order. -/
def catKeys : List String :=
  ["TransitOrientedDense", "TransitOriented", "LifestyleHub",
   "HighDensity", "StandardResidential", "Peripheral"]

/-- `CAT_LABELS[c] || c` — display label with the JS lookup-miss fallback. -/
def catLabel : String → String
  | "TransitOrientedDense" => "Transit-Oriented Dense"
  | "TransitOriented" => "Transit-Oriented"
  | "LifestyleHub" => "Lifestyle Hub"
  | "HighDensity" => "High Density"
  | "StandardResidential" => "Standard Residential"
  | "Peripheral" => "Peripheral"
  | c => c

/-- `CAT_COLORS[c] || '#999'` as used by `catDot`. -/
def catColor : String → String
  | "TransitOrientedDense" => "#c0392b"
  | "TransitOriented" => "#e67e22"
  | "LifestyleHub" => "#27ae60"
  | "HighDensity" => "#8e44ad"
  | "StandardResidential" => "#2980b9"
  | "Peripheral" => "#7f8c8d"
  | _ => "#999"

/-- `CATEGORY_RULES` — key and description pairs, in priority order. -/
def categoryRules : List (String × String) :=
  [("TransitOrientedDense", "Transit Index >= 0.8 AND GFA > 100,000 m²"),
   ("TransitOriented", "Transit Index >= 0.7"),
   ("LifestyleHub", "Diversity Index >= 0.85"),
   ("HighDensity", "GFA > 200,000 m²"),
   ("Peripheral", "Transit Index < 0.3"),
   ("StandardResidential", "Default (none of the above)")]

/-- `EDGE_LABELS[t] || t`. -/
def edgeLabel : String → String
  | "sn_Bar" => "Shares Nearest Bar"
  | "sn_Cafe" => "Shares Nearest Cafe"
  | "sn_ChildCare" => "Shares Nearest ChildCare"
  | "sn_Facility" => "Shares Nearest Facility"
  | "sn_Restaurant" => "Shares Nearest Restaurant"
  | "sn_SocialService" => "Shares Nearest Social Service"
  | "sn_UseSite" => "Shares Nearest Community Site"
  | "sim" => "Similar Lifestyle"
  | t => t

/-- `METRICS[m].key` — the node field of a canonical metric name. -/
def metricField : String → Node → Option ℚ
  | "energy", d => d.e
  | "gfa", d => d.gfa
  | "transit", d => d.ti
  | "diversity", d => d.div
  | "buildings", d => d.b
  | "units", d => d.u
  | "levels", d => d.lvl
  | "bus", d => d.bd
  | "mrt", d => d.md
  | _, _ => none

/-- `METRICS[m].label`. -/
def metricLabel : String → String
  | "energy" => "Energy (kWh/yr)"
  | "gfa" => "Gross Floor Area (m²)"
  | "transit" => "Transit Index"
  | "diversity" => "Diversity Index"
  | "buildings" => "Buildings"
  | "units" => "Est. Residential Units"
  | "levels" => "Avg Building Levels"
  | "bus" => "Bus Distance (m)"
  | "mrt" => "MRT Distance (m)"
  | _ => ""

/-- `METRICS[m].unit`. -/
def metricUnit : String → String
  | "energy" => "kWh/yr"
  | "gfa" => "m²"
  | "bus" => "m"
  | "mrt" => "m"
  | _ => ""

/-! ## Numeric utility helpers (`mean`, `median`, `stddev`) -/

/-- `mean(arr)` — 0 on the empty list, else sum / length. -/
def mean (arr : List ℚ) : ℚ :=
  if arr.length = 0 then 0 else arr.sum / arr.length

/-- `median(arr)` — 0 on the empty list, else the middle element of the
numerically sorted copy (mean of the two middles for even length).
`[...arr].sort((a, b) => a - b)` is the stable numeric sort. -/
def median (arr : List ℚ) : ℚ :=
  if arr.length = 0 then 0
  else
    let sorted := arr.insertionSort (· ≤ ·)
    let mid := arr.length / 2
    if arr.length % 2 = 1 then sorted.getD mid 0
    else (sorted.getD (mid - 1) 0 + sorted.getD mid 0) / 2

/-- `stddev(arr)` — sample standard deviation: 0 when fewer than 2 values,
else `Math.sqrt` of the sum of squared deviations from the mean divided by
`length - 1`. -/
noncomputable def stddev (arr : List ℚ) : ℝ :=
  if arr.length < 2 then 0
  else
    Real.sqrt
      ((arr.map (fun v => ((v : ℝ) - (mean arr : ℚ)) ^ 2)).sum
        / ((arr.length : ℝ) - 1))

/-! ## Number and HTML rendering (see the file header on formatting) -/

/-- Left-pad a string with zeros to the given length. -/
def padZeros (s : String) (len : ℕ) : String :=
  if len ≤ s.length then s
  else String.mk (List.replicate (len - s.length) '0') ++ s

/-- `n.toFixed(d)` modelled on exact rationals with round-half-up on the
absolute value. -/
def ratToFixed (q : ℚ) (d : ℕ) : String :=
  let scaled : ℤ := ⌊|q| * ((10 : ℚ) ^ d) + 1/2⌋
  let s := padZeros (toString scaled.natAbs) (d + 1)
  let ip := s.take (s.length - d)
  let fp := s.drop (s.length - d)
  (if q < 0 then "-" else "") ++ (if d = 0 then ip else ip ++ "." ++ fp)

/-- `n.toLocaleString(undefined, { maximumFractionDigits: 1 })`, without
locale group separators. -/
def ratToLocale1 (q : ℚ) : String :=
  if q.den = 1 then toString q.num else ratToFixed q 1

/-- The `_fmt` number formatter.  At runtime `_fmt` delegates to the
page-level `fmt()` when one is loaded; both are float renderers with the
same integer behaviour on the magnitudes the claims touch.  Modelled by the
engine-local fallback branches on exact rationals.  The `null`/`NaN` guard
lives in `fmtOpt`. -/
def fmtNum (n : ℚ) : String :=
  if 1000000 ≤ |n| then ratToFixed (n / 1000000) 1 ++ "M"
  else if 1000 ≤ |n| then ratToLocale1 n
  else if n.den = 1 then toString n.num
  else ratToFixed n 2

/-- `_fmt` on a possibly-absent field: `'-'` for `null`/`undefined`/`NaN`. -/
def fmtOpt (v : Option ℚ) : String :=
  match v with
  | none => "-"
  | some q => fmtNum q

/-- `esc(s)` — the three sequential global replaces `& < >`; since the
first replace introduces no `<`/`>` and the later ones act on fresh `&`
never re-scanned, a single character map is equivalent. -/
def esc (s : String) : String :=
  String.join (s.toList.map fun c =>
    if c == '&' then "&amp;"
    else if c == '<' then "&lt;"
    else if c == '>' then "&gt;"
    else String.mk [c])

/-- `catDot(cat)` — the colored dot span. -/
def catDot (cat : String) : String :=
  "<span style=\"display:inline-block;width:10px;height:10px;border-radius:50%;background:"
    ++ catColor cat
    ++ ";margin-right:4px;vertical-align:middle\"></span>"

/-- `Array.prototype.join(sep)`. -/
def joinSep (sep : String) : List String → String
  | [] => ""
  | [s] => s
  | s :: rest => s ++ sep ++ joinSep sep rest

/-- `htmlTable(headers, rows, numCols)` — `numCols` is the set of
right-aligned numeric column indices. -/
def htmlTable (headers : List String) (rows : List (List String))
    (numCols : List ℕ) : String :=
  let hd := String.join (headers.enum.map fun (i, h) =>
    "<th" ++ (if i ∈ numCols then " style=\"text-align:right\"" else "") ++ ">"
      ++ h ++ "</th>")
  let body := String.join (rows.map fun row =>
    "<tr>" ++ String.join (row.enum.map fun (i, cell) =>
      "<td" ++ (if i ∈ numCols then " class=\"num\"" else "") ++ ">"
        ++ cell ++ "</td>") ++ "</tr>")
  "<table class=\"data-table\"><thead><tr>" ++ hd ++ "</tr></thead><tbody>"
    ++ body ++ "</tbody></table>"

/-! ## Facility-token helpers -/

/-- `s.split(',')`. -/
def splitCommas : List Char → List (List Char)
  | [] => [[]]
  | c :: rest =>
    let r := splitCommas rest
    if c == ',' then [] :: r
    else
      match r with
      | h :: t => (c :: h) :: t
      | [] => [[c]]

/-- The trimmed nonempty facility tokens of a node
(`node.ft.split(',')` → trim → drop empties). -/
def facilityTokens (n : Node) : List String :=
  match n.ft with
  | none => []
  | some s =>
    (((splitCommas s.toList).map jsTrim).filter (fun t => !t.isEmpty)).map String.mk

/-- Keep the first occurrence of each element (JS `Set` insertion order). -/
def dedupFirst (l : List String) : List String :=
  l.foldl (fun acc s => if s ∈ acc then acc else acc ++ [s]) []

/-- `this.allFacilityTypes` — all distinct facility tokens, in first-seen
order. -/
def allFacilityTypes (e : Engine) : List String :=
  dedupFirst ((e.nodes.map facilityTokens).flatten)

/-- Whether a node's facility list contains `ft` up to trim + lowercase
(`d.ft.split(',').map(s => s.trim().toLowerCase()).includes(ft.toLowerCase())`). -/
def hasFacility (ft : String) (d : Node) : Bool :=
  match d.ft with
  | none => false
  | some s =>
    ((splitCommas s.toList).map (fun f => lowerStr (jsTrim f))).contains
      (lowerStr ft.toList)

/-! ## Precomputed aggregates (`_precompute`) -/

/-- `this.byCategory[cat] || []` — the bucket exists only for the six known
keys; nodes with unknown categories are silently dropped. -/
def byCategory (e : Engine) (cat : String) : List Node :=
  if cat ∈ catKeys then e.nodes.filter (fun d => d.category == cat) else []

/-- `this.stats` — global aggregates. -/
structure GlobalStats where
  count : ℕ
  totalGFA : ℚ
  totalEnergy : ℚ
  totalBuildings : ℚ
  totalUnits : ℚ
  avgTransit : ℚ
  avgDiversity : ℚ
  avgGFA : ℚ
  avgEnergy : ℚ
  avgLevels : ℚ
  avgBusDist : ℚ
  avgMrtDist : ℚ
  edgeCount : ℕ
deriving DecidableEq

/-- `_precompute`'s `this.stats`. -/
def globalStats (e : Engine) : GlobalStats :=
  let n := e.nodes
  { count := n.length
    totalGFA := (n.map (fun d => orZero d.gfa)).sum
    totalEnergy := (n.map (fun d => orZero d.e)).sum
    totalBuildings := (n.map (fun d => orZero d.b)).sum
    totalUnits := (n.map (fun d => orZero d.u)).sum
    avgTransit := mean (n.map (fun d => orZero d.ti))
    avgDiversity := mean (n.map (fun d => orZero d.div))
    avgGFA := mean (n.map (fun d => orZero d.gfa))
    avgEnergy := mean (n.map (fun d => orZero d.e))
    avgLevels := mean ((n.filter (fun d => gtZero d.lvl)).map (fun d => orZero d.lvl))
    avgBusDist := mean ((n.filter (fun d => gtZero d.bd)).map (fun d => orZero d.bd))
    avgMrtDist := mean ((n.filter (fun d => gtZero d.md)).map (fun d => orZero d.md))
    edgeCount := e.edges.length }

/-- One record of `this.catStats`.  A JS record with absent fields is
modelled with `none` in each absent field, so the zero-member record
`{count: 0}` is `{ count := 0 }` with every other field `none`. -/
structure CatStats where
  count : ℕ
  avgGFA : Option ℚ := none
  avgEnergy : Option ℚ := none
  avgTransit : Option ℚ := none
  avgDiversity : Option ℚ := none
  avgBuildings : Option ℚ := none
  avgUnits : Option ℚ := none
  avgLevels : Option ℚ := none
  totalGFA : Option ℚ := none
  totalEnergy : Option ℚ := none
deriving DecidableEq

/-- `_precompute`'s `this.catStats[cat]`. -/
def catStats (e : Engine) (cat : String) : CatStats :=
  let group := byCategory e cat
  if group.isEmpty then { count := 0 }
  else
    { count := group.length
      avgGFA := some (mean (group.map (fun d => orZero d.gfa)))
      avgEnergy := some (mean (group.map (fun d => orZero d.e)))
      avgTransit := some (mean (group.map (fun d => orZero d.ti)))
      avgDiversity := some (mean (group.map (fun d => orZero d.div)))
      avgBuildings := some (mean (group.map (fun d => orZero d.b)))
      avgUnits := some (mean (group.map (fun d => orZero d.u)))
      avgLevels := some (mean ((group.filter (fun d => gtZero d.lvl)).map (fun d => orZero d.lvl)))
      totalGFA := some ((group.map (fun d => orZero d.gfa)).sum)
      totalEnergy := some ((group.map (fun d => orZero d.e)).sum) }

/-- `this.edgeTypeCounts` keys in first-seen order. -/
def edgeTypeKeys (e : Engine) : List String :=
  dedupFirst (e.edges.map (fun t => t.2.2))

/-- `this.edgeTypeCounts[ty] || 0`. -/
def edgeTypeCount (e : Engine) (ty : String) : ℕ :=
  (e.edges.filter (fun t => t.2.2 == ty)).length

/-! ## Matching helpers (`_matchCategory`, `_matchMetric`, `_matchFacilityType`) -/

/-- `text.toLowerCase().replace(/[^a-z0-9\s]/g, '')`. -/
def stripForCat (t : List Char) : List Char :=
  (lowerStr t).filter (fun c => c.isLower || c.isDigit || isSpaceChar c)

/-- The `labelMap` alias table, in source (insertion) order. -/
def labelMap : List (String × String) :=
  [("transit oriented dense", "TransitOrientedDense"),
   ("transit-oriented dense", "TransitOrientedDense"),
   ("tod", "TransitOrientedDense"),
   ("transit oriented", "TransitOriented"),
   ("transit-oriented", "TransitOriented"),
   ("lifestyle hub", "LifestyleHub"),
   ("lifestyle", "LifestyleHub"),
   ("high density", "HighDensity"),
   ("highdensity", "HighDensity"),
   ("dense", "HighDensity"),
   ("standard residential", "StandardResidential"),
   ("standard", "StandardResidential"),
   ("residential", "StandardResidential"),
   ("peripheral", "Peripheral")]

/-- `_matchCategory(text)`: normalize, try a direct category-key substring
match in `Object.keys` order, then the alias table sorted stably by alias
length descending (`sort((a, b) => b[0].length - a[0].length)`), each alias
with its hyphens removed (the global hyphen replace on `pattern`). -/
def matchCategory (text : List Char) : Option String :=
  let t := stripForCat text
  match catKeys.find? (fun k => hasSubstr t (lowerStr k.toList)) with
  | some k => some k
  | none =>
    let sorted := labelMap.insertionSort (fun a b => b.1.length ≤ a.1.length)
    match sorted.find? (fun p => hasSubstr t (p.1.toList.filter (fun c => c != '-'))) with
    | some p => some p.2
    | none => none

/-- `_matchMetric(text)`: the ordered regex checks, first match wins. -/
def matchMetric (text : List Char) : Option String :=
  let t := lowerStr text
  if hasWord t "energy" || anySubstr t ["consumption", "kwh"] then some "energy"
  else if hasWord t "gfa" || anySubstr t ["floor area", "gross floor"] then some "gfa"
  else if hasWord t "transit" || anySubstr t ["accessibility"] then some "transit"
  else if hasWordPre t "diversit" then some "diversity"
  else if hasWordPre t "building" then some "buildings"
  else if hasWord t "unit" || hasWord t "units" || anySubstr t ["residential"] then some "units"
  else if hasWord t "level" || hasWord t "levels" || anySubstr t ["storey", "stories"]
      || hasWordSuf t "floor" || hasWordSuf t "floors" then some "levels"
  else if hasWord t "bus" || anySubstr t ["bus dist"] then some "bus"
  else if hasWord t "mrt" || anySubstr t ["mrt dist", "metro"] then some "mrt"
  else none

/-- The `known` facility-type list of `_matchFacilityType`, in order. -/
def knownFacilities : List String :=
  ["Bar", "Cafe", "Restaurant", "Hawker", "Garden", "Library", "Sport",
   "Museum", "ChildCare", "SocialService", "CommunityUseSite"]

/-- `_matchFacilityType(text)`: known types by lowercase substring first,
then the fuzzy alias regexes, then a scan of the live facility-type
universe. -/
def matchFacilityType (e : Engine) (text : List Char) : Option String :=
  let t := lowerStr text
  match knownFacilities.find? (fun ft => hasSubstr t (lowerStr ft.toList)) with
  | some ft => some ft
  | none =>
    if seqSpaced t "child" "care" || anySubstr t ["childcare", "daycare", "kindergarten"] then
      some "ChildCare"
    else if seqSpaced t "social" "service" then some "SocialService"
    else if seqSubstr t "community" "site" || seqSubstr t "community" "use" then
      some "CommunityUseSite"
    else if anySubstr t ["hawker", "hawkar"] then some "Hawker"
    else if anySubstr t ["park", "green"] then some "Garden"
    else if anySubstr t ["gym", "fitness", "swim"] then some "Sport"
    else (allFacilityTypes e).find? (fun ft => hasSubstr t (lowerStr ft.toList))

/-! ## Classifier rule tests (the ordered regexes of `query`) -/

/-- Rule 2: `/tell me about|details? (?:of|for|on)/i`, expanded. -/
def tellDetailsTest (t : List Char) : Bool :=
  anySubstr t ["tell me about", "detail of", "details of", "detail for",
               "details for", "detail on", "details on"]

/-- Rule 3: `/how are.*categor|node type|classification|category rule|how.*classif/i`. -/
def methodologyTest (t : List Char) : Bool :=
  seqSubstr t "how are" "categor"
  || anySubstr t ["node type", "classification", "category rule"]
  || seqSubstr t "how" "classif"

/-- Rule 4: `/connected to|neighbors? of|connections? of|adjacent to|linked to/i`. -/
def relationshipTest (t : List Char) : Bool :=
  anySubstr t ["connected to", "neighbor of", "neighbors of",
               "connection of", "connections of", "adjacent to", "linked to"]

/-- Rule 5: `/\b(top|highest|largest|biggest|most|bottom|lowest|smallest|least|best|worst)\b/i`. -/
def rankingTest (t : List Char) : Bool :=
  ["top", "highest", "largest", "biggest", "most", "bottom", "lowest",
   "smallest", "least", "best", "worst"].any (fun w => hasWord t w)

/-- Rule 6: `/which.*(?:have|with|contain)|parcels.*(?:have|with)|has (?:a )?(?:bar|cafe|garden|library|sport|museum|hawker|childcare|restaurant|social)/i`. -/
def facilityPhraseTest (t : List Char) : Bool :=
  seqSubstr t "which" "have" || seqSubstr t "which" "with" || seqSubstr t "which" "contain"
  || seqSubstr t "parcels" "have" || seqSubstr t "parcels" "with"
  || anySubstr t
      ["has bar", "has a bar", "has cafe", "has a cafe", "has garden", "has a garden",
       "has library", "has a library", "has sport", "has a sport", "has museum",
       "has a museum", "has hawker", "has a hawker", "has childcare", "has a childcare",
       "has restaurant", "has a restaurant", "has social", "has a social"]

/-- Rule 7: `/\b(average|mean|total|sum|how many|count|median|standard deviation|std dev)\b/i`. -/
def statisticsTest (t : List Char) : Bool :=
  ["average", "mean", "total", "sum", "how many", "count", "median",
   "standard deviation", "std dev"].any (fun w => hasWord t w)

/-- Rule 9: `/overview|summary|general|dataset|about the (data|graph|knowledge)/i`. -/
def overviewTest (t : List Char) : Bool :=
  anySubstr t ["overview", "summary", "general", "dataset",
               "about the data", "about the graph", "about the knowledge"]

/-- Rule 10: `/facilit(?:y|ies)|amenities|what (?:types|kinds)/i`. -/
def facilityTypesTest (t : List Char) : Bool :=
  anySubstr t ["facility", "facilities", "amenities", "what types", "what kinds"]

/-- Rule 11: `/edge type|relationship type|connection type|link type/i`. -/
def edgeTypesTest (t : List Char) : Bool :=
  anySubstr t ["edge type", "relationship type", "connection type", "link type"]

/-- In `_ranking`: `/bottom|lowest|smallest|least|worst/i` (no word
boundaries here, unlike rule 5). -/
def isBottomTest (t : List Char) : Bool :=
  anySubstr t ["bottom", "lowest", "smallest", "least", "worst"]

/-- In `_statistics`: `/how many|count/i` (plain substrings). -/
def howManyTest (t : List Char) : Bool :=
  anySubstr t ["how many", "count"]

/-- The connectives of rule 3's comparison regex, in alternation order. -/
def compareSeps : List String := ["and", "vs.", "vs", "versus", "with"]

/-- Scanner for `compareMatch`: split at the earliest whitespace-delimited
connective with nonempty text on both sides, accumulating the first capture
in `acc`. -/
def splitCompareAux (acc : List Char) : List Char → Option (List Char × List Char)
  | [] => none
  | c :: rest =>
    let cand : Option (List Char × List Char) :=
      if c.isWhitespace && !acc.isEmpty then
        let afterWs := (c :: rest).dropWhile isSpaceChar
        compareSeps.findSome? (fun sep =>
          let tail := afterWs.drop sep.length
          if sep.toList.isPrefixOf afterWs && tail.head?.any Char.isWhitespace
              && !(tail.dropWhile isSpaceChar).isEmpty then
            some (acc, tail.dropWhile isSpaceChar)
          else none)
      else none
    match cand with
    | some r => some r
    | none => splitCompareAux (acc ++ [c]) rest

/-- Rule 3: `lower.match(/compare\s+(.+?)\s+(?:and|vs\.?|versus|with)\s+(.+)/)`,
returning the two captures.  Modelling notes: only the first occurrence of
`compare` is tried, the lazy first capture is realised as the earliest
splitting connective, and both captures are trimmed by the comparison
handler anyway.  No claim exercises this rule. -/
def compareMatch (t : List Char) : Option (List Char × List Char) :=
  match afterSubstr t "compare".toList with
  | none => none
  | some rest =>
    if rest.head?.any Char.isWhitespace then
      splitCompareAux [] (rest.dropWhile isSpaceChar)
    else none

/-! ## Error, fallback and example questions -/

/-- `getExampleQuestions()`. -/
def exampleQuestions : List String :=
  ["Show me an overview of the dataset",
   "Top 10 parcels by energy consumption",
   "Tell me about kml_10042",
   "How are parcels categorized?",
   "Which parcels have a Cafe?",
   "Compare Transit-Oriented Dense vs Peripheral",
   "Average transit index by category",
   "Neighbors of kml_10042",
   "How many parcels are High Density?",
   "Bottom 5 parcels by diversity index"]

/-- `_error(message)` — a bare error result: only title, type and html. -/
def errorResult (message : String) : QueryResult :=
  { title := "Error"
    type := "error"
    html := "<div class=\"q-insight\" style=\"border-left-color:#922b21\">"
      ++ message ++ "</div>" }

/-- `_fallback(q)` — echo of the unrecognized query plus the
example-question list; also a bare result (title, type, html only). -/
def fallback (q : List Char) : QueryResult :=
  { title := "Query Not Understood"
    type := "error"
    html :=
      "<div class=\"q-insight\">I could not understand the query: \"<em>"
        ++ esc (String.mk q) ++ "</em>\".</div>"
        ++ "<p style=\"font-size:12px;margin-bottom:10px\">Here are some things you can ask:</p>"
        ++ "<ul style=\"margin-left:18px;font-size:12px;line-height:1.8\">"
        ++ String.join (exampleQuestions.map (fun ex => "<li>" ++ esc ex ++ "</li>"))
        ++ "</ul>" }

/-! ## Parcel lookup -/

/-- `_parcelLookup(id)`.  The found branch's `html` reproduces the insight
header; the core-metric rows, facility tags and connection lists that
follow are static markup over the same node fields (see the file header)
and are elided.  The radar chart data and `mapHighlights` are modelled. -/
def parcelLookup (e : Engine) (id : String) : QueryResult :=
  match e.nodeMap id with
  | none =>
    errorResult ("Parcel <strong>" ++ esc id ++ "</strong> was not found in the dataset.")
  | some node =>
    let label := catLabel node.category
    let cs := catStats e node.category
    { title := "Parcel " ++ id
      type := "parcel-detail"
      html :=
        "<div class=\"q-insight\">\n        <strong>" ++ esc id
          ++ "</strong> is a <strong>" ++ label ++ "</strong> parcel\n        located at ("
          ++ ratToFixed node.lat 4 ++ ", " ++ ratToFixed node.lng 4 ++ ").\n      </div>"
      chartConfig := some
        { ctype := "radar"
          labels := ["Transit", "Diversity", "GFA (norm)", "Energy (norm)", "Buildings (norm)"]
          datasets :=
            [[orZero node.ti, orZero node.div,
              min (orZero node.gfa / 500000) 1,
              min (orZero node.e / 25000000) 1,
              min (orZero node.b / 50) 1],
             [cs.avgTransit.getD 0, cs.avgDiversity.getD 0,
              min (cs.avgGFA.getD 0 / 500000) 1,
              min (cs.avgEnergy.getD 0 / 25000000) 1,
              min (cs.avgBuildings.getD 0 / 50) 1]] }
      mapHighlights := some [id] }

/-! ## Ranking -/

/-- The result-count parsing of `_ranking`: default 10 when no standalone
integer, else the first standalone integer, clamped to 50 from above and
reset to 10 below 1. -/
def rankCount (lower : List Char) : ℕ :=
  let c0 := match firstStandaloneInt lower with
    | some n => n
    | none => 10
  let c1 := if c0 > 50 then 50 else c0
  if c1 < 1 then 10 else c1

/-- The descending comparator preorder of `_ranking` on metric `m`
(`(b[k] || 0) - (a[k] || 0)` as a sort key). -/
def descRel (m : String) (a b : Node) : Prop :=
  orZero (metricField m b) ≤ orZero (metricField m a)

/-- The ascending comparator preorder of `_ranking` on metric `m`. -/
def ascRel (m : String) (a b : Node) : Prop :=
  orZero (metricField m a) ≤ orZero (metricField m b)

instance (m : String) : DecidableRel (descRel m) :=
  fun _ _ => inferInstanceAs (Decidable (_ ≤ _))

instance (m : String) : DecidableRel (ascRel m) :=
  fun _ _ => inferInstanceAs (Decidable (_ ≤ _))

instance (m : String) : IsTotal Node (descRel m) :=
  ⟨fun a b => le_total (orZero (metricField m b)) (orZero (metricField m a))⟩

instance (m : String) : IsTotal Node (ascRel m) :=
  ⟨fun a b => le_total (orZero (metricField m a)) (orZero (metricField m b))⟩

instance (m : String) : IsTrans Node (descRel m) :=
  ⟨fun _ _ _ h1 h2 => le_trans h2 h1⟩

instance (m : String) : IsTrans Node (ascRel m) :=
  ⟨fun _ _ _ h1 h2 => le_trans h1 h2⟩

/-- The filtered, sorted node list of `_ranking`: drop nodes whose metric
value is null/undefined/NaN, then the stable comparator sort on
`(x || 0)`-coerced values (see the file header on `Array.prototype.sort`). -/
def rankSorted (e : Engine) (m : String) (asc : Bool) : List Node :=
  let filtered := e.nodes.filter (fun d => (metricField m d).isSome)
  if asc then filtered.insertionSort (ascRel m)
  else filtered.insertionSort (descRel m)

/-- `id.replace('kml_', '')` — remove the first occurrence only. -/
def replaceFirstAux (pat : List Char) : List Char → List Char
  | [] => []
  | c :: rest =>
    if pat.isPrefixOf (c :: rest) then (c :: rest).drop pat.length
    else c :: replaceFirstAux pat rest

/-- The bar-chart label of a ranked parcel. -/
def stripKmlLabel (id : String) : String :=
  String.mk (replaceFirstAux "kml_".toList id.toList)

/-- `_ranking(lower)`. -/
def ranking (e : Engine) (lower : List Char) : QueryResult :=
  let asc := isBottomTest lower
  let dirLabel := if asc then "Bottom" else "Top"
  let count := rankCount lower
  match matchMetric lower with
  | none =>
    errorResult "Could not determine which metric to rank. Try: energy, gfa, transit, diversity, buildings, units, levels, bus distance, mrt distance."
  | some m =>
    let topN := (rankSorted e m asc).take count
    let ids := topN.map (fun d => d.id)
    let label := metricLabel m
    let rows := topN.enum.map (fun p =>
      [toString (p.1 + 1),
       "<code>" ++ p.2.id ++ "</code>",
       catDot p.2.category ++ catLabel p.2.category,
       fmtOpt (metricField m p.2)
         ++ (if metricUnit m != "" then " " ++ metricUnit m else "")])
    { title := dirLabel ++ " " ++ toString count ++ " Parcels by " ++ label
      type := "ranking"
      html :=
        "<div class=\"q-insight\">" ++ dirLabel ++ " <strong>" ++ toString count
          ++ "</strong> parcels by <strong>" ++ label ++ "</strong>.</div>"
          ++ htmlTable ["Rank", "Parcel ID", "Category", label] rows [0, 3]
      chartConfig := some
        { ctype := "bar"
          labels := topN.map (fun d => stripKmlLabel d.id)
          datasets := [topN.map (fun d => orZero (metricField m d))] }
      mapHighlights := some ids }

/-! ## Statistics and histogram -/

/-- `Math.min(...values)` / `Math.max(...values)`.  The JS spread on an
empty array gives ±Infinity; it only arises for an empty node list, where
the histogram loop is vacuous, and is modelled as 0. -/
def listMin : List ℚ → ℚ
  | [] => 0
  | x :: xs => xs.foldl min x

/-- See `listMin`. -/
def listMax : List ℚ → ℚ
  | [] => 0
  | x :: xs => xs.foldl max x

/-- `(maxVal - minVal) / bins || 1` with `bins = 12` (a zero width is falsy
and defaults to 1). -/
def binWidthOf (minVal maxVal : ℚ) : ℚ :=
  let w := (maxVal - minVal) / 12
  if w = 0 then 1 else w

/-- The bin index of one value: `Math.floor((v - minVal) / binWidth)`,
clamped down to 11 when it reaches 12. -/
def binIndexZ (minVal binWidth v : ℚ) : ℤ :=
  let b := ⌊(v - minVal) / binWidth⌋
  if 12 ≤ b then 11 else b

/-- The 12-bin histogram of `_statistics`.  A negative index would write
outside the array in JS without changing bins 0–11; modelled by skipping
the increment (the safety theorem below shows it cannot happen for
in-range values anyway). -/
def histogramOf (values : List ℚ) : List ℕ :=
  let minV := listMin values
  let w := binWidthOf minV (listMax values)
  values.foldl
    (fun h v =>
      let b := binIndexZ minV w v
      if 0 ≤ b then h.set b.toNat (h.getD b.toNat 0 + 1) else h)
    (List.replicate 12 0)

/-- The histogram bin labels (`_fmt(minVal + i * binWidth)`). -/
def histLabels (values : List ℚ) : List String :=
  (List.range 12).map (fun i =>
    fmtNum (listMin values + i * binWidthOf (listMin values) (listMax values)))

/-- The whole `html` of the category-count branch of `_statistics`. -/
def categoryCountHtml (n : ℕ) (label : String) (pct : ℚ) (total : ℕ) : String :=
  "<div class=\"q-insight\">There are <strong>" ++ toString n
    ++ "</strong> parcels\n              in the <strong>" ++ label
    ++ "</strong> category\n              (" ++ ratToFixed pct 1
    ++ "% of all " ++ fmtNum (total : ℚ) ++ " parcels).</div>"

/-- `_statistics(lower)`.  The metric branch's `html` reproduces the
insight header; the statistic / per-category tables after it are formatted
renderings (min, max, mean, median, stddev, totals) of the modelled values
and are elided; the 12-bin histogram chart is modelled in full.  The NaN
filter on `values` is vacuous under the `Option ℚ` model (`orZero` never
produces NaN). -/
def statistics (e : Engine) (lower : List Char) : QueryResult :=
  match matchMetric lower with
  | none =>
    if howManyTest lower then
      match matchCategory lower with
      | some cat =>
        let group := byCategory e cat
        { title := "Count: " ++ catLabel cat
          type := "statistic"
          html := categoryCountHtml group.length (catLabel cat)
            ((group.length : ℚ) / ((globalStats e).count : ℚ) * 100) (globalStats e).count
          mapHighlights := some (group.map (fun d => d.id)) }
      | none =>
        match matchFacilityType e lower with
        | some ft =>
          let matching := e.nodes.filter (hasFacility ft)
          { title := "Parcels with " ++ ft
            type := "statistic"
            html := "<div class=\"q-insight\"><strong>" ++ toString matching.length
              ++ "</strong> parcels have access to a <strong>" ++ ft
              ++ "</strong>\n              ("
              ++ ratToFixed ((matching.length : ℚ) / ((globalStats e).count : ℚ) * 100) 1
              ++ "% of all parcels).</div>" }
        | none =>
          { title := "Parcel Count"
            type := "statistic"
            html := "<div class=\"q-insight\">The dataset contains <strong>"
              ++ fmtNum (((globalStats e).count : ℕ) : ℚ)
              ++ "</strong> parcels,\n            connected by <strong>"
              ++ fmtNum (((globalStats e).edgeCount : ℕ) : ℚ) ++ "</strong> edges.</div>" }
    else
      errorResult "Could not determine which metric to compute. Try: energy, gfa, transit, diversity, buildings, units."
  | some m =>
    let values := e.nodes.map (fun d => orZero (metricField m d))
    { title := "Statistics: " ++ metricLabel m
      type := "statistics"
      html := "<div class=\"q-insight\">Statistics for <strong>" ++ metricLabel m
        ++ "</strong> across " ++ fmtNum (((globalStats e).count : ℕ) : ℚ)
        ++ " parcels.</div>"
      chartConfig := some
        { ctype := "bar"
          labels := histLabels values
          datasets := [(histogramOf values).map (fun n => (n : ℚ))] } }

/-! ## Category info, facility query, relationships, comparison -/

/-- `_categoryInfo(cat)`.  Insight header reproduced; the metric-ratio
table and top-5 list are elided renderings; the category-comparison chart
is modelled. -/
def categoryInfo (e : Engine) (cat : String) : QueryResult :=
  let group := byCategory e cat
  let label := catLabel cat
  if group.isEmpty then
    errorResult ("No parcels found in category <strong>" ++ label ++ "</strong>.")
  else
    let ruleDesc :=
      match categoryRules.find? (fun r => r.1 == cat) with
      | some r => r.2
      | none => "N/A"
    let allCats := catKeys.filter (fun c => !(byCategory e c).isEmpty)
    { title := "Category: " ++ label
      type := "category"
      html := "<div class=\"q-insight\">\n        " ++ catDot cat ++ " <strong>" ++ label
        ++ "</strong> &mdash; " ++ toString group.length ++ " parcels\n        ("
        ++ ratToFixed ((group.length : ℚ) / ((globalStats e).count : ℚ) * 100) 1
        ++ "% of dataset).<br>\n        <em>Rule: " ++ ruleDesc ++ "</em>\n      </div>"
      chartConfig := some
        { ctype := "bar"
          labels := allCats.map catLabel
          datasets :=
            [allCats.map (fun c => ((catStats e c).avgTransit).getD 0),
             allCats.map (fun c => ((catStats e c).avgDiversity).getD 0)] }
      mapHighlights := some (group.map (fun d => d.id)) }

/-- `_facilityQuery(lower)`.  Insight and no-match branches reproduced;
breakdown/top-10 tables elided; doughnut chart and highlights modelled. -/
def facilityQuery (e : Engine) (lower : List Char) : QueryResult :=
  match matchFacilityType e lower with
  | none =>
    errorResult ("Could not determine which facility type. Available: "
      ++ joinSep ", " ((allFacilityTypes e).insertionSort (fun a b => a ≤ b)))
  | some ft =>
    let matching := e.nodes.filter (hasFacility ft)
    if matching.isEmpty then
      { title := "Parcels with " ++ ft
        type := "facility"
        html := "<div class=\"q-insight\">No parcels were found with access to <strong>"
          ++ esc ft ++ "</strong>.</div>" }
    else
      let chartCats := dedupFirst (matching.map (fun d => d.category))
      { title := "Parcels with " ++ ft
        type := "facility"
        html := "<div class=\"q-insight\"><strong>" ++ toString matching.length
          ++ "</strong> parcels have access to\n        <strong>" ++ esc ft ++ "</strong> ("
          ++ ratToFixed ((matching.length : ℚ) / ((globalStats e).count : ℚ) * 100) 1
          ++ "% of all parcels).</div>"
        chartConfig := some
          { ctype := "doughnut"
            labels := chartCats.map catLabel
            datasets := [chartCats.map (fun c =>
              (((matching.filter (fun d => d.category == c)).length : ℕ) : ℚ))] }
        mapHighlights := some (matching.map (fun d => d.id)) }

/-- `_relationships(id)`.  Per-type tables elided; insight, edge-type
grouping order, doughnut chart and the highlight list are modelled.
`this.nodes.indexOf(node)` is reference equality on the shared node
objects, modelled as the index of the first structurally equal node; an
out-of-range neighbor index is a loader precondition violation (spec §7)
and is modelled by a harmless self default. -/
def relationships (e : Engine) (id : String) : QueryResult :=
  match e.nodeMap id with
  | none => errorResult ("Parcel <strong>" ++ esc id ++ "</strong> was not found.")
  | some node =>
    let connections := e.adj (e.nodes.indexOf node)
    if connections.isEmpty then
      { title := "Connections: " ++ id
        type := "relationship"
        html := "<div class=\"q-insight\">Parcel <strong>" ++ esc id
          ++ "</strong> has no connections in the graph.</div>" }
    else
      let neighborOf := fun (c : ℕ × String) => e.nodes.getD c.1 node
      let etypes := dedupFirst (connections.map (fun c => c.2))
      let allNeighborIds :=
        (etypes.map (fun ty =>
          ((connections.filter (fun c => c.2 == ty)).map (fun c => (neighborOf c).id)))).flatten
      let neighborCats := dedupFirst (connections.map (fun c => (neighborOf c).category))
      { title := "Connections of " ++ id
        type := "relationship"
        html := "<div class=\"q-insight\">Parcel <strong>" ++ esc id ++ "</strong>\n        ("
          ++ catLabel node.category ++ ") has <strong>" ++ toString connections.length
          ++ "</strong>\n        connections across <strong>" ++ toString etypes.length
          ++ "</strong> relationship types.</div>"
        chartConfig := some
          { ctype := "doughnut"
            labels := neighborCats.map catLabel
            datasets := [neighborCats.map (fun c =>
              (((connections.filter (fun cn => (neighborOf cn).category == c)).length : ℕ) : ℚ))] }
        mapHighlights := some (id :: allNeighborIds) }

/-- `_comparison(nameA, nameB)`.  Metric table elided; radar chart data and
the union highlight list are modelled.  For a zero-member category the JS
radar receives `undefined`/NaN values (`csA.avgGFA` absent); modelled with
0 defaults — no claim touches that degenerate rendering. -/
def comparison (e : Engine) (nameA nameB : List Char) : QueryResult :=
  match matchCategory nameA, matchCategory nameB with
  | some catA, some catB =>
    let csA := catStats e catA
    let csB := catStats e catB
    let labelA := catLabel catA
    let labelB := catLabel catB
    let nrm := fun (v mx : ℚ) => if 0 < mx then min (v / mx) 1 else 0
    let maxGFA := max (max (csA.avgGFA.getD 0) (csB.avgGFA.getD 0)) 1
    let maxEnergy := max (max (csA.avgEnergy.getD 0) (csB.avgEnergy.getD 0)) 1
    let maxBuildings := max (max (csA.avgBuildings.getD 0) (csB.avgBuildings.getD 0)) 1
    let maxUnits := max (max (csA.avgUnits.getD 0) (csB.avgUnits.getD 0)) 1
    { title := labelA ++ " vs " ++ labelB
      type := "comparison"
      html := "<div class=\"q-insight\">Comparing " ++ catDot catA ++ "<strong>" ++ labelA
        ++ "</strong>\n        (" ++ toString csA.count ++ " parcels) vs " ++ catDot catB
        ++ "<strong>" ++ labelB ++ "</strong> (" ++ toString csB.count ++ " parcels).</div>"
      chartConfig := some
        { ctype := "radar"
          labels := ["Transit", "Diversity", "GFA", "Energy", "Buildings", "Units"]
          datasets :=
            [[csA.avgTransit.getD 0, csA.avgDiversity.getD 0,
              nrm (csA.avgGFA.getD 0) maxGFA, nrm (csA.avgEnergy.getD 0) maxEnergy,
              nrm (csA.avgBuildings.getD 0) maxBuildings, nrm (csA.avgUnits.getD 0) maxUnits],
             [csB.avgTransit.getD 0, csB.avgDiversity.getD 0,
              nrm (csB.avgGFA.getD 0) maxGFA, nrm (csB.avgEnergy.getD 0) maxEnergy,
              nrm (csB.avgBuildings.getD 0) maxBuildings, nrm (csB.avgUnits.getD 0) maxUnits]] }
      mapHighlights := some
        ((byCategory e catA).map (fun d => d.id) ++ (byCategory e catB).map (fun d => d.id)) }
  | optA, _ =>
    let missing := if optA.isNone then nameA else nameB
    errorResult ("Could not match \"<strong>" ++ esc (String.mk missing)
      ++ "</strong>\" to a category. Available: " ++ joinSep ", " (catKeys.map catLabel))

/-! ## Methodology, overview and listing handlers -/

/-- `_methodology()`.  Rule table, metric glossary and edge table elided
(static text plus modelled counts); the distribution pie chart is
modelled. -/
def methodology (e : Engine) : QueryResult :=
  { title := "Classification Methodology"
    type := "methodology"
    html := "<div class=\"q-insight\">Parcels are classified into <strong>6 categories</strong>\n        based on transit accessibility, diversity, and density metrics.\n        Rules are evaluated in order; the <em>first matching</em> rule determines the category.</div>"
    chartConfig := some
      { ctype := "pie"
        labels := catKeys.map catLabel
        datasets := [catKeys.map (fun c => (((byCategory e c).length : ℕ) : ℚ))] } }

/-- `_overview()`.  Stat cards reproduced; breakdown tables and the
facility inventory markup elided; the pie chart over non-empty categories
is modelled. -/
def overview (e : Engine) : QueryResult :=
  let s := globalStats e
  let cats := catKeys.filter (fun c => !(byCategory e c).isEmpty)
  let statCards : List (String × String) :=
    [(fmtNum ((s.count : ℕ) : ℚ), "Parcels"), (fmtNum ((s.edgeCount : ℕ) : ℚ), "Edges"),
     (fmtNum s.totalGFA, "Total GFA (m²)"), (fmtNum s.totalEnergy, "Total Energy (kWh/yr)"),
     (fmtNum s.totalBuildings, "Buildings"), (fmtNum s.totalUnits, "Est. Units")]
  { title := "Dataset Overview"
    type := "overview"
    html := "<div class=\"stat-grid\">"
      ++ String.join (statCards.map (fun p =>
           "<div class=\"stat-card\"><div class=\"stat-value\">" ++ p.1
             ++ "</div><div class=\"stat-label\">" ++ p.2 ++ "</div></div>"))
      ++ "</div>"
    chartConfig := some
      { ctype := "pie"
        labels := cats.map catLabel
        datasets := [cats.map (fun c => (((byCategory e c).length : ℕ) : ℚ))] } }

/-- `_facilityTypes()`.  Frequency table elided; insight header and the
coverage chart (keys in first-seen order, stably sorted descending by
count) are modelled.  Token counts include repeated tokens within one node,
as in the source. -/
def facilityTypes (e : Engine) : QueryResult :=
  let countOf := fun (ft : String) =>
    ((e.nodes.map facilityTokens).flatten.filter (fun t => t == ft)).length
  let sorted := (allFacilityTypes e).insertionSort (fun a b => countOf b ≤ countOf a)
  { title := "Facility Types"
    type := "facility-types"
    html := "<div class=\"q-insight\">There are <strong>" ++ toString sorted.length
      ++ "</strong> facility types\n        across the dataset. A parcel \"has access to\" a facility if it falls within the parcel boundary or nearest service area.</div>"
    chartConfig := some
      { ctype := "bar"
        labels := sorted
        datasets := [sorted.map (fun ft => ((countOf ft : ℕ) : ℚ))] } }

/-- `_edgeTypes()`.  Table elided; insight and the distribution chart
(stably sorted descending by count) are modelled. -/
def edgeTypes (e : Engine) : QueryResult :=
  let sorted :=
    (edgeTypeKeys e).insertionSort (fun a b => edgeTypeCount e b ≤ edgeTypeCount e a)
  { title := "Edge / Relationship Types"
    type := "edge-types"
    html := "<div class=\"q-insight\">The knowledge graph has <strong>"
      ++ fmtNum (((globalStats e).edgeCount : ℕ) : ℚ) ++ "</strong> edges\n        across <strong>"
      ++ toString (edgeTypeKeys e).length ++ "</strong> relationship types.</div>"
    chartConfig := some
      { ctype := "bar"
        labels := sorted.map edgeLabel
        datasets := [sorted.map (fun t => ((edgeTypeCount e t : ℕ) : ℚ))] } }

/-! ## The dispatcher -/

/-- `query(text)` — the ordered, first-match-wins dispatcher.  Rules are in
source order; rule 2 can never reach its lookup (rule 1 already returned
whenever an id is present) and is kept for structural fidelity. -/
def query (e : Engine) (text : String) : QueryResult :=
  let q := jsTrim text.toList
  if q.isEmpty then errorResult "Please enter a query."
  else
    let lower := lowerStr q
    match findKml q with
    | some id => parcelLookup e (String.mk id)
    | none =>
      if tellDetailsTest lower && (findKml q).isSome then
        parcelLookup e (String.mk ((findKml q).getD []))
      else if methodologyTest lower then methodology e
      else
        match compareMatch lower with
        | some p => comparison e (jsTrim p.1) (jsTrim p.2)
        | none =>
          if relationshipTest lower then
            match findKml q with
            | some id => relationships e (String.mk id)
            | none =>
              errorResult "Please specify a parcel ID (e.g., kml_12345) for relationship queries."
          else if rankingTest lower then ranking e lower
          else if facilityPhraseTest lower then facilityQuery e lower
          else if statisticsTest lower then statistics e lower
          else
            match matchCategory lower with
            | some cat => categoryInfo e cat
            | none =>
              if overviewTest lower then overview e
              else if facilityTypesTest lower then facilityTypes e
              else if edgeTypesTest lower then edgeTypes e
              else fallback q

/-! ## A small concrete engine for the witnesses -/

/-- Four parcels over two categories, with one absent energy value. -/
def sampleNodes : List Node :=
  [{ id := "kml_10042", category := "HighDensity", e := some 50, gfa := some 1000 },
   { id := "kml_7", category := "HighDensity", e := some 50 },
   { id := "kml_8", category := "Peripheral" },
   { id := "kml_9", category := "Peripheral", e := some 10 }]

/-- The witnesses' engine. -/
def sampleEngine : Engine :=
  { nodes := sampleNodes
    edges := []
    adj := fun _ => []
    nodeMap := fun i => sampleNodes.find? (fun d => d.id == i) }

/-! ## Theorems -/

/-- C1: evaluation of the category matcher at the spec's example input.
The claim says `"Transit-Oriented Dense"` (in any casing, with or without
the hyphen) resolves to `TransitOrientedDense`.  With the hyphen the
normalization strips it, the direct category-key pass then finds the
shorter key `TransitOriented` as a substring of `transitoriented dense`
and returns before the length-sorted alias table (whose hyphen-aware
entries are thereby unreachable) is ever consulted.  Without the hyphen
the expected category is returned. -/
theorem c1_matchCategory_eval :
    matchCategory "Transit-Oriented Dense".toList = some "TransitOriented"
  ∧ matchCategory "transit oriented dense".toList = some "TransitOrientedDense"
  ∧ matchCategory "TRANSIT ORIENTED DENSE".toList = some "TransitOrientedDense" := by
  refine ⟨?_, ?_, ?_⟩ <;> decide

/-- C10: every error-typed result — those built by the `_error` helper
(validation, not-found, unresolved-parameter conditions) and the fallback
result for unrecognized queries — consists of exactly title, type
`"error"` and html: the `chartConfig` and `mapHighlights` fields are
absent. -/
theorem c10_error_results_bare :
    (∀ msg, (errorResult msg).type = "error"
      ∧ (errorResult msg).chartConfig = none
      ∧ (errorResult msg).mapHighlights = none
      ∧ (errorResult msg).title = "Error")
  ∧ (∀ q, (fallback q).type = "error"
      ∧ (fallback q).chartConfig = none
      ∧ (fallback q).mapHighlights = none) :=
  ⟨fun _ => ⟨rfl, rfl, rfl, rfl⟩, fun _ => ⟨rfl, rfl, rfl⟩⟩

/-- C6: `stddev` is the sample (N−1) standard deviation: 0 for any list
with fewer than two values, and on `[2,4,4,4,5,5,7,9]` it equals
√(32/7) ≈ 2.1381, within 0.001 of the claimed 2.138. -/
theorem c6_stddev :
    (∀ arr : List ℚ, arr.length < 2 → stddev arr = 0)
  ∧ |stddev [2, 4, 4, 4, 5, 5, 7, 9] - 2.138| < 1/1000 := by
  constructor
  · intro arr h
    simp [stddev, h]
  · have hm : mean [(2 : ℚ), 4, 4, 4, 5, 5, 7, 9] = 5 := by
      norm_num [mean, List.sum_cons, List.sum_nil]
    have hs : stddev [2, 4, 4, 4, 5, 5, 7, 9] = Real.sqrt (32 / 7) := by
      rw [stddev, if_neg (by norm_num), hm]
      norm_num [List.sum_cons, List.sum_nil]
    rw [hs, abs_lt]
    constructor
    · have hgt : (2.137 : ℝ) < Real.sqrt (32 / 7) := by
        rw [Real.lt_sqrt (by norm_num)]
        norm_num
      linarith
    · have hlt : Real.sqrt (32 / 7) < 2.139 := by
        rw [Real.sqrt_lt' (by norm_num)]
        norm_num
      linarith

/-- C6 witness: the fewer-than-two-values clause at the singleton list. -/
theorem c6_witness : stddev [(3 : ℚ)] = 0 :=
  c6_stddev.1 [3] (by norm_num)

/-- C7 counterexample: the claim states a value exactly equal to the
maximum is placed in bin index 11.  In the degenerate histogram where
min = max (bin width defaulting to 1) a value equal to the maximum lands
in bin 0: with the single value 5, the bin index of 5 is 0 and the
histogram puts its one count in the first bin. -/
theorem c7_counterexample :
    listMax [5] = 5
  ∧ binIndexZ (listMin [5]) (binWidthOf (listMin [5]) (listMax [5])) 5 = 0
  ∧ histogramOf [5] = [1, 0, 0, 0, 0, 0, 0, 0, 0, 0, 0, 0] := by
  refine ⟨rfl, ?_, ?_⟩
  · simp only [binIndexZ, binWidthOf, listMin, listMax]
    norm_num
  · simp only [histogramOf, binIndexZ, binWidthOf, listMin, listMax]
    norm_num
    rfl

/-- C7 (amended): every value in `[min, max]` is assigned a bin index in
`[0, 11]` — the bin increment never indexes out of range — and a value
equal to the maximum lands in the last bin 11 whenever `min < max`; in
the degenerate `min = max` case (bin width defaulting to 1 to avoid
division by zero) every value lands in bin 0 instead. -/
theorem c7_bin_safety (minV maxV v : ℚ) (h1 : minV ≤ v) (h2 : v ≤ maxV) :
    0 ≤ binIndexZ minV (binWidthOf minV maxV) v
  ∧ binIndexZ minV (binWidthOf minV maxV) v ≤ 11
  ∧ (minV < maxV → v = maxV → binIndexZ minV (binWidthOf minV maxV) v = 11)
  ∧ (minV = maxV → binIndexZ minV (binWidthOf minV maxV) v = 0) := by
  have hw : 0 < binWidthOf minV maxV := by
    simp only [binWidthOf]
    split
    · norm_num
    · rename_i hne
      have h0 : 0 ≤ (maxV - minV) / 12 :=
        div_nonneg (sub_nonneg.mpr (h1.trans h2)) (by norm_num)
      exact lt_of_le_of_ne h0 (Ne.symm hne)
  have hb0 : 0 ≤ ⌊(v - minV) / binWidthOf minV maxV⌋ := by
    apply Int.floor_nonneg.mpr
    exact div_nonneg (sub_nonneg.mpr h1) hw.le
  refine ⟨?_, ?_, ?_, ?_⟩
  · simp only [binIndexZ]
    split
    · norm_num
    · exact hb0
  · simp only [binIndexZ]
    split
    · norm_num
    · omega
  · intro hlt hv
    have hwid : binWidthOf minV maxV = (maxV - minV) / 12 := by
      simp only [binWidthOf]
      split
      · rename_i hz
        exfalso
        have hne : maxV - minV ≠ 0 := sub_ne_zero.mpr (ne_of_gt hlt)
        have hq : (maxV - minV) / 12 ≠ 0 := by
          simp [div_eq_zero_iff, hne]
        exact hq hz
      · rfl
    simp only [binIndexZ, hwid, hv]
    have hne : maxV - minV ≠ 0 := sub_ne_zero.mpr (ne_of_gt hlt)
    have hq : (maxV - minV) / ((maxV - minV) / 12) = 12 := by
      field_simp
    rw [hq]
    norm_num
  · intro heq
    have hv : v = minV := le_antisymm (heq ▸ h2) h1
    simp only [binIndexZ, hv]
    norm_num

/-- C7 witness: binning the range `[0, 10]` and the value 10, which lands
in the last bin. -/
theorem c7_witness :
    0 ≤ binIndexZ 0 (binWidthOf 0 10) 10
  ∧ binIndexZ 0 (binWidthOf 0 10) 10 ≤ 11
  ∧ binIndexZ 0 (binWidthOf 0 10) 10 = 11 := by
  have h := c7_bin_safety 0 10 10 (by norm_num) (by norm_num)
  exact ⟨h.1, h.2.1, h.2.2.1 (by norm_num) rfl⟩

/-- C8: for a known category with zero members the precomputed category
record is exactly `{count: 0}` — every metric field absent, no mean ever
formed — while a category with at least one member gets the full record:
its count is the member count and every metric field is present, each mean
dividing by that nonzero member count. -/
theorem c8_catStats (e : Engine) (cat : String) :
    (byCategory e cat = [] → catStats e cat = { count := 0 })
  ∧ (byCategory e cat ≠ [] →
      (catStats e cat).count = (byCategory e cat).length
      ∧ 0 < (byCategory e cat).length
      ∧ (catStats e cat).avgGFA
          = some ((((byCategory e cat).map (fun d => orZero d.gfa)).sum)
              / ((byCategory e cat).length : ℚ))
      ∧ (catStats e cat).avgEnergy.isSome = true
      ∧ (catStats e cat).avgTransit.isSome = true
      ∧ (catStats e cat).avgDiversity.isSome = true
      ∧ (catStats e cat).avgBuildings.isSome = true
      ∧ (catStats e cat).avgUnits.isSome = true
      ∧ (catStats e cat).avgLevels.isSome = true
      ∧ (catStats e cat).totalGFA.isSome = true
      ∧ (catStats e cat).totalEnergy.isSome = true) := by
  constructor
  · intro h
    simp only [catStats, h]
    rfl
  · intro h
    have hne : (byCategory e cat).isEmpty = false := by
      cases hb : byCategory e cat with
      | nil => exact absurd hb h
      | cons a l => rfl
    have hlen : 0 < (byCategory e cat).length := by
      cases hb : byCategory e cat with
      | nil => exact absurd hb h
      | cons a l => simp
    have hmean : mean ((byCategory e cat).map (fun d => orZero d.gfa))
        = (((byCategory e cat).map (fun d => orZero d.gfa)).sum)
            / ((byCategory e cat).length : ℚ) := by
      simp only [mean, List.length_map]
      rw [if_neg (by omega)]
    refine ⟨?_, hlen, ?_, ?_, ?_, ?_, ?_, ?_, ?_, ?_, ?_⟩ <;>
      simp [catStats, hne, hmean]

/-- C8 witness: the empty `LifestyleHub` bucket of the sample engine gives
the bare zero record; the two-member `HighDensity` bucket gives the full
count. -/
theorem c8_witness :
    catStats sampleEngine "LifestyleHub" = { count := 0 }
  ∧ (catStats sampleEngine "HighDensity").count = 2 := by
  constructor
  · exact (c8_catStats sampleEngine "LifestyleHub").1 (by decide)
  · have h := (c8_catStats sampleEngine "HighDensity").2 (by decide)
    rw [h.1]
    decide

/-- C3: an empty or whitespace-only query short-circuits before any
classification rule: the result is the `_error` validation result — type
`"error"` with the guidance message wrapped in the insight div — and it
carries neither `chartConfig` nor `mapHighlights`.  (`query` is a total
function, so no exception can escape the call.) -/
theorem c3_empty_query (e : Engine) (text : String) (h : jsTrim text.toList = []) :
    query e text = errorResult "Please enter a query."
  ∧ (query e text).type = "error"
  ∧ (query e text).html
      = "<div class=\"q-insight\" style=\"border-left-color:#922b21\">Please enter a query.</div>"
  ∧ (query e text).chartConfig = none
  ∧ (query e text).mapHighlights = none := by
  have h1 : query e text = errorResult "Please enter a query." := by
    unfold query
    rw [h]
    rfl
  refine ⟨h1, ?_, ?_, ?_, ?_⟩ <;> rw [h1] <;> rfl

/-- C3 witness: a whitespace-only query on the sample engine. -/
theorem c3_witness :
    query sampleEngine "   " = errorResult "Please enter a query."
  ∧ (query sampleEngine "   ").chartConfig = none
  ∧ (query sampleEngine "   ").mapHighlights = none :=
  have h := c3_empty_query sampleEngine "   " (by decide)
  ⟨h.1, h.2.2.2.1, h.2.2.2.2⟩

/-- C2: any query whose trimmed text contains a parcel id `kml_<digits>`
(case-insensitively) is dispatched to the parcel-lookup handler with the
first such id — unconditionally on the rest of the text, so in particular
a ranking keyword such as `top` cannot divert it: the id rule is checked
before the ranking rule in the first-match-wins chain. -/
theorem c2_parcel_rule_first (e : Engine) (text : String) (id : List Char)
    (h : findKml (jsTrim text.toList) = some id) :
    query e text = parcelLookup e (String.mk id) := by
  have hne : (jsTrim text.toList).isEmpty = false := by
    cases hq : jsTrim text.toList with
    | nil => rw [hq] at h; simp [findKml] at h
    | cons c rest => rfl
  unfold query
  simp only [hne, Bool.false_eq_true, if_false, h]

/-- C2 witness: `"top parcel kml_10042"` contains both a ranking keyword
and a parcel id; the parcel rule wins. -/
theorem c2_witness :
    query sampleEngine "top parcel kml_10042"
      = parcelLookup sampleEngine (String.mk "kml_10042".toList) :=
  c2_parcel_rule_first sampleEngine "top parcel kml_10042" "kml_10042".toList (by decide)

/-- C9: `query("How many parcels are High Density?")` routes to the count
branch of the statistics handler: the result has type `"statistic"`, its
html is the count template applied to the size of the `HighDensity` bucket
and to that size divided by the total node count times 100, and its
`mapHighlights` are exactly the ids of the bucket's nodes — for every
engine. -/
theorem c9_high_density_count (e : Engine) :
    query e "How many parcels are High Density?" =
      { title := "Count: High Density"
        type := "statistic"
        html := categoryCountHtml (byCategory e "HighDensity").length "High Density"
          (((byCategory e "HighDensity").length : ℚ) / ((globalStats e).count : ℚ) * 100)
          (globalStats e).count
        mapHighlights := some ((byCategory e "HighDensity").map (fun d => d.id)) } := by
  rfl

/-- C4: the ranking count — 10 by default when the text has no standalone
integer, else the first standalone integer, with values above 50 clamped
to 50 and 0 reset to the default 10 rather than erroring; consequently the
ranked result never carries more than 50 ids/rows. -/
theorem c4_rank_count (e : Engine) (lower : List Char) :
    (firstStandaloneInt lower = none → rankCount lower = 10)
  ∧ (∀ n, firstStandaloneInt lower = some n →
      rankCount lower = if 50 < n then 50 else if n = 0 then 10 else n)
  ∧ (∀ m, matchMetric lower = some m →
      ∃ ids, (ranking e lower).mapHighlights = some ids ∧ ids.length ≤ 50) := by
  have hle : rankCount lower ≤ 50 := by
    cases h : firstStandaloneInt lower with
    | none => simp [rankCount, h]
    | some n =>
      simp only [rankCount, h]
      split_ifs <;> omega
  refine ⟨?_, ?_, ?_⟩
  · intro h
    simp [rankCount, h]
  · intro n h
    simp only [rankCount, h]
    split_ifs <;> omega
  · intro m hm
    refine ⟨((rankSorted e m (isBottomTest lower)).take (rankCount lower)).map (fun d => d.id),
      ?_, ?_⟩
    · simp only [ranking, hm]
    · rw [List.length_map, List.length_take]
      exact le_trans (min_le_left _ _) hle

/-- C4 witness: `"top 0 by energy"` resets to 10, `"top 999 by energy"`
clamps to 50, and the ranked id list stays within 50 entries. -/
theorem c4_witness :
    rankCount "top 0 by energy".toList = 10
  ∧ rankCount "top 999 by energy".toList = 50
  ∧ (∃ ids, (ranking sampleEngine "top 0 by energy".toList).mapHighlights = some ids
      ∧ ids.length ≤ 50) := by
  refine ⟨?_, ?_, ?_⟩
  · have h := (c4_rank_count sampleEngine "top 0 by energy".toList).2.1 0 (by decide)
    simpa using h
  · have h := (c4_rank_count sampleEngine "top 999 by energy".toList).2.1 999 (by decide)
    simpa using h
  · exact (c4_rank_count sampleEngine "top 0 by energy".toList).2.2 "energy" (by decide)

/-- C5: the ranked list of the ranking handler (the topN rows and the
`mapHighlights` ids) is drawn only from nodes whose metric value is
present (not null/undefined/NaN); it is sorted on that value — descending
without the bottom/lowest/smallest/least/worst keywords, ascending with
them; and the sort is a stable total order: the sorted list permutes
exactly the filtered nodes and two nodes with equal metric values keep
their original relative order. -/
theorem c5_rank_order (e : Engine) (lower : List Char) (m : String)
    (hm : matchMetric lower = some m) :
    ((ranking e lower).mapHighlights
        = some (((rankSorted e m (isBottomTest lower)).take (rankCount lower)).map
            (fun d => d.id)))
  ∧ (∀ d ∈ (rankSorted e m (isBottomTest lower)).take (rankCount lower),
      (metricField m d).isSome = true)
  ∧ (isBottomTest lower = false →
      ((rankSorted e m (isBottomTest lower)).take (rankCount lower)).Pairwise (descRel m))
  ∧ (isBottomTest lower = true →
      ((rankSorted e m (isBottomTest lower)).take (rankCount lower)).Pairwise (ascRel m))
  ∧ (rankSorted e m (isBottomTest lower)).Perm
      (e.nodes.filter (fun d => (metricField m d).isSome))
  ∧ (∀ a b, orZero (metricField m a) = orZero (metricField m b) →
      [a, b].Sublist (e.nodes.filter (fun d => (metricField m d).isSome)) →
      [a, b].Sublist (rankSorted e m (isBottomTest lower))) := by
  refine ⟨?_, ?_, ?_, ?_, ?_, ?_⟩
  · simp only [ranking, hm]
  · intro d hd
    have h1 : d ∈ rankSorted e m (isBottomTest lower) := List.mem_of_mem_take hd
    have h2 : d ∈ e.nodes.filter (fun d => (metricField m d).isSome) := by
      cases hb : isBottomTest lower <;>
        simp only [rankSorted, hb, if_true, if_false, Bool.false_eq_true] at h1 <;>
        exact (List.mem_insertionSort _).mp h1
    exact (List.mem_filter.mp h2).2
  · intro hb
    simp only [rankSorted, hb, Bool.false_eq_true, if_false]
    exact List.Pairwise.sublist (List.take_sublist _ _)
      (List.sorted_insertionSort (descRel m) _)
  · intro hb
    simp only [rankSorted, hb, if_true]
    exact List.Pairwise.sublist (List.take_sublist _ _)
      (List.sorted_insertionSort (ascRel m) _)
  · cases hb : isBottomTest lower <;>
      simp only [rankSorted, hb, if_true, Bool.false_eq_true, if_false] <;>
      exact List.perm_insertionSort _ _
  · intro a b hk hsub
    cases hb : isBottomTest lower
    · simp only [rankSorted, Bool.false_eq_true, if_false]
      exact List.pair_sublist_insertionSort (le_of_eq hk.symm) hsub
    · simp only [rankSorted, if_true]
      exact List.pair_sublist_insertionSort (le_of_eq hk) hsub

/-- C5 witness: `"top 3 by energy"` on the sample engine (descending on the
energy metric). -/
theorem c5_witness :
    ((ranking sampleEngine "top 3 by energy".toList).mapHighlights
        = some (((rankSorted sampleEngine "energy"
            (isBottomTest "top 3 by energy".toList)).take
              (rankCount "top 3 by energy".toList)).map (fun d => d.id)))
  ∧ (∀ d ∈ (rankSorted sampleEngine "energy"
        (isBottomTest "top 3 by energy".toList)).take
          (rankCount "top 3 by energy".toList),
      (metricField "energy" d).isSome = true)
  ∧ (isBottomTest "top 3 by energy".toList = false →
      ((rankSorted sampleEngine "energy" (isBottomTest "top 3 by energy".toList)).take
          (rankCount "top 3 by energy".toList)).Pairwise (descRel "energy"))
  ∧ (isBottomTest "top 3 by energy".toList = true →
      ((rankSorted sampleEngine "energy" (isBottomTest "top 3 by energy".toList)).take
          (rankCount "top 3 by energy".toList)).Pairwise (ascRel "energy"))
  ∧ (rankSorted sampleEngine "energy" (isBottomTest "top 3 by energy".toList)).Perm
      (sampleEngine.nodes.filter (fun d => (metricField "energy" d).isSome))
  ∧ (∀ a b, orZero (metricField "energy" a) = orZero (metricField "energy" b) →
      [a, b].Sublist (sampleEngine.nodes.filter (fun d => (metricField "energy" d).isSome)) →
      [a, b].Sublist (rankSorted sampleEngine "energy" (isBottomTest "top 3 by energy".toList))) :=
  c5_rank_order sampleEngine "top 3 by energy".toList "energy" (by decide)

end KG
